import Mathlib

/-!
Verification of `use-color-luminance` (src/useColorLuminance.ts).

Shallow embedding conventions:

* A JavaScript number that flows through the parsing stage is modelled as
  `Option ℚ`, with `none` standing for `NaN` (every JS float reachable here is
  a rational; comparisons against `NaN` are false, and arithmetic on `NaN`
  yields `NaN`, which the `Option` operations below reproduce).
* A luminance-stage value is modelled as `Option ℝ` (`none` = `NaN`), because
  the sRGB transfer function `((c + 0.055) / 1.055) ** 2.4` produces
  irrational reals; `**` is modelled by `Real.rpow` (the base is positive in
  the branch where it is applied, where JS `**` agrees with `rpow`).
* The global mutable `CACHE` object is modelled as an explicit value of type
  `String → Option (Option ℝ)` threaded through `colorLuminance`; a thrown
  exception is an `Except.error` result, and since the source only assigns
  `CACHE[color]` after the recursive luminance call returns, an error leaves
  the cache unchanged.  (The prototype chain of the object literal is not
  modelled: lookups on absent keys are `none`.)
* Error values carry the offending literal.  For array inputs the source
  renders the literal via `color.join(', ')`; the rendering of numbers to
  strings is not modelled, so `Err` carries the structured array instead.
-/

namespace UCL

/-- Characters treated as whitespace by JavaScript `parseInt` trimming. -/
def jsWhitespaceChar (c : Char) : Bool :=
  c == ' ' || c == '\t' || c == '\n' || c == '\r' || c == '\x0b' || c == '\x0c' ||
    c == '\u00A0' || c == '\uFEFF' || c == '\u2028' || c == '\u2029'

/-- Value of a hexadecimal digit character, `none` for non-hex characters. -/
def hexDigitVal (c : Char) : Option ℕ :=
  if '0' ≤ c ∧ c ≤ '9' then some (c.toNat - 48)
  else if 'a' ≤ c ∧ c ≤ 'f' then some (c.toNat - 97 + 10)
  else if 'A' ≤ c ∧ c ≤ 'F' then some (c.toNat - 65 + 10)
  else none

def isHexDigitChar (c : Char) : Bool := (hexDigitVal c).isSome

/-- Fold a list of hex digit characters into a number (base 16). -/
def hexValue (l : List Char) : ℕ :=
  l.foldl (fun acc c => 16 * acc + (hexDigitVal c).getD 0) 0

/-- Models JavaScript `parseInt(s, 16)`: trim leading whitespace, optional
sign, optional `0x`/`0X` prefix, then the longest prefix of hex digits; the
result is `NaN` (`none`) when no digit is found. -/
def strip0x (l : List Char) : List Char :=
  if l.head? = some '0' ∧ (l.tail.head? = some 'x' ∨ l.tail.head? = some 'X') then l.tail.tail
  else l

def parseIntHex (s : String) : Option ℚ :=
  let l := s.data.dropWhile jsWhitespaceChar
  let sgn : ℚ := if l.head? = some '-' then -1 else 1
  let l1 := if l.head? = some '-' ∨ l.head? = some '+' then l.tail else l
  let ds := (strip0x l1).takeWhile isHexDigitChar
  if ds.isEmpty then none else some (sgn * (hexValue ds : ℚ))

/-- Source `hexToByte` (line 212-214): `parseInt(hex, 16)`. -/
def hexToByte (hex : String) : Option ℚ := parseIntHex hex

def isDigitChar (c : Char) : Bool := '0' ≤ c ∧ c ≤ '9'

def digitVal (c : Char) : ℕ := c.toNat - 48

/-- Value of a (nonempty) decimal digit string. -/
def natval (l : List Char) : ℕ :=
  l.foldl (fun acc c => 10 * acc + digitVal c) 0

/-- Value of a fractional digit string `d₁d₂…` as `0.d₁d₂…`. -/
def fracval (l : List Char) : ℚ :=
  l.foldr (fun c acc => ((digitVal c : ℚ) + acc) / 10) 0

/-- Models JavaScript `Number(s)` on the strings the `RGBA_PATTERN` capture
groups can produce: strings of decimal digits with at most one dot.  A lone
`"."` is `NaN`; `"0."` is `0`; `".5"` is `0.5`.  (`Number("")` is `0` in JS,
but the capture groups are never empty, so that case is unreachable here.) -/
def numOfDecimal (l : List Char) : Option ℚ :=
  let ip := l.takeWhile isDigitChar
  let rest := l.dropWhile isDigitChar
  if rest.isEmpty then (if ip.isEmpty then none else some (natval ip))
  else if rest.head? = some '.' ∧ rest.tail.all isDigitChar then
    if ip.isEmpty ∧ rest.tail.isEmpty then none
    else some ((natval ip : ℚ) + fracval rest.tail)
  else none

/-- Consume one expected character. -/
def expect (c : Char) (l : List Char) : Option (List Char) :=
  match l with
  | d :: t => if d = c then some t else none
  | [] => none

/-- Consume a greedy nonempty run of decimal digits (`[0-9]+`). -/
def parseNum (l : List Char) : Option (List Char × List Char) :=
  if (l.takeWhile isDigitChar).isEmpty then none
  else some (l.takeWhile isDigitChar, l.dropWhile isDigitChar)

/-- Consume `\.[0-9]*\)` greedily, returning the characters matched by
`\.[0-9]*` and the rest after `)`. -/
def parseFrac (l : List Char) : Option (List Char × List Char) :=
  match expect '.' l with
  | none => none
  | some r =>
    match expect ')' (r.dropWhile isDigitChar) with
    | none => none
    | some r2 => some ('.' :: r.takeWhile isDigitChar, r2)

/-- Backtracking match of the regex fragment `(1|0|0?\.[0-9]*)\)` of
`RGBA_PATTERN` (line 3): the alternatives are tried left to right, each
followed by the closing parenthesis; returns the alpha capture and the rest
after `)`.  When the leading `0` of `0?` is consumed but no `.` follows, the
engine backtracks to the empty `0?`, whose `\.` then fails on the same `0`,
so the whole alternative fails, as modelled by the `none` fall-through. -/
def matchAlphaClose (l : List Char) : Option (List Char × List Char) :=
  match expect '1' l >>= expect ')' with
  | some r => some (['1'], r)
  | none =>
    match expect '0' l >>= expect ')' with
    | some r => some (['0'], r)
    | none =>
      match expect '0' l with
      | some r1 =>
        match parseFrac r1 with
        | some p => some ('0' :: p.1, p.2)
        | none => none
      | none =>
        match parseFrac l with
        | some p => some p
        | none => none

/-- Match of `RGBA_PATTERN` = `rgba?\(([0-9]+),([0-9]+),([0-9]+)(?:,(…))?\)`
anchored at the head of `l`, returning the three digit captures and the
optional alpha capture.  Greedy `[0-9]+` runs followed by a required
non-digit character need no backtracking; the optional alpha group is first
attempted (requiring a `,`) and skipped only when the next character is `)`,
exactly as the backtracking JS engine resolves it. -/
def matchRgbAt (l : List Char) : Option (List Char × List Char × List Char × Option (List Char)) :=
  match expect 'r' l >>= expect 'g' >>= expect 'b' with
  | none => none
  | some r =>
    let ra := if r.head? = some 'a' then r.tail else r
    match expect '(' ra with
    | none => none
    | some r0 =>
      match parseNum r0 with
      | none => none
      | some p1 =>
        match expect ',' p1.2 with
        | none => none
        | some r1 =>
          match parseNum r1 with
          | none => none
          | some p2 =>
            match expect ',' p2.2 with
            | none => none
            | some r2 =>
              match parseNum r2 with
              | none => none
              | some p3 =>
                if p3.2.head? = some ')' then some (p1.1, p2.1, p3.1, none)
                else
                  match expect ',' p3.2 with
                  | none => none
                  | some r3 =>
                    match matchAlphaClose r3 with
                    | some pa => some (p1.1, p2.1, p3.1, some pa.1)
                    | none => none

/-- Unanchored leftmost search for `RGBA_PATTERN`, as `String.match` performs
(the pattern has no anchors, so any substring match succeeds). -/
def findRgb : List Char → Option (List Char × List Char × List Char × Option (List Char))
  | [] => none
  | c :: t =>
    match matchRgbAt (c :: t) with
    | some m => some m
    | none => findRgb t

/-- The offending literal carried by an error: the original string, or the
array rendered by `color.join(', ')` (the rendering itself is not modelled). -/
inductive ErrColor where
  | str (s : String)
  | arr (a : List (Option ℚ))
deriving DecidableEq

/-- The two error classes of the source (`UnsupportedFormat`,
`NeedsAlphaBlending`); `NeedsAlphaBlending` also carries the parsed alpha. -/
inductive Err where
  | unsupportedFormat (color : ErrColor)
  | needsAlphaBlending (color : ErrColor) (alpha : Option ℚ)
deriving DecidableEq

/-- Whether a result is a normal return (no exception thrown). -/
def isOkE {α : Type} : Except Err α → Bool
  | .ok _ => true
  | .error _ => false

/-- An `OpaqueColor` input: a string, or a numeric array. -/
inductive Color where
  | str (s : String)
  | arr (a : List (Option ℚ))

/-- One disjunct of `color.some((d) => d < 0 || d > 255)`; both comparisons
are false for `NaN`. -/
def outOfRange (d : Option ℚ) : Bool :=
  match d with
  | none => false
  | some x => decide (x < 0) || decide (255 < x)

/-- Source `assertRgbColor` (lines 226-238). -/
def assertRgbColor (color : List (Option ℚ)) : Option Err :=
  if color.length < 3 ∨ 4 < color.length ∨ color.any outOfRange then
    some (.unsupportedFormat (.arr color))
  else if color.length = 4 ∧ color.getD 3 none ≠ some 1 then
    some (.needsAlphaBlending (.arr color) (color.getD 3 none))
  else none

/-- One channel of `componentsToLuminance` (lines 217-219):
`c > 0.03928 ? ((c + 0.055) / 1.055) ** 2.4 : c / 12.92`.  The comparison is
false for `NaN`, which then propagates through the division. -/
noncomputable def linearize (c : Option ℚ) : Option ℝ :=
  match c with
  | none => none
  | some x =>
    if 0.03928 < x then some ((((x : ℝ) + 0.055) / 1.055) ^ (2.4 : ℝ))
    else some ((x : ℝ) / 12.92)

/-- Source `componentsToLuminance` (lines 216-224): the weighted sum
`0.2126 * rl + 0.7152 * gl + 0.0722 * bl`; `NaN` in any channel propagates. -/
noncomputable def componentsToLuminance (r g b : Option ℚ) : Option ℝ :=
  match linearize r with
  | none => none
  | some rl =>
    match linearize g with
    | none => none
    | some gl =>
      match linearize b with
      | none => none
      | some bl => some (0.2126 * rl + 0.7152 * gl + 0.0722 * bl)

def qdiv255 : Option ℚ → Option ℚ
  | none => none
  | some x => some (x / 255)

/-- The array branch of `colorLuminance` (lines 207-209): validate, then
`componentsToLuminance(color[0] / 255, color[1] / 255, color[2] / 255)`. -/
noncomputable def arrayLuminance (color : List (Option ℚ)) : Except Err (Option ℝ) :=
  match assertRgbColor color with
  | some e => .error e
  | none =>
    .ok (componentsToLuminance (qdiv255 (color.getD 0 none)) (qdiv255 (color.getD 1 none))
      (qdiv255 (color.getD 2 none)))

/-- JavaScript `l.slice(i, i + 2)`. -/
def slice2 (l : List Char) (i : ℕ) : List Char := (l.drop i).take 2

/-- The string branches of `colorLuminance` (lines 162-204), without the
cache: the value computed (or error thrown) for a string input.  The source
assigns `CACHE[color]` around each successful recursive call; that store is
factored out into `stringLuminance` below. -/
noncomputable def stringLumResult (s : String) : Except Err (Option ℝ) :=
  if s.data.head? = some '#' then
    let rgb := s.data.tail
    if rgb.length = 3 then
      arrayLuminance [hexToByte (String.mk [rgb.getD 0 ' ', rgb.getD 0 ' ']),
        hexToByte (String.mk [rgb.getD 1 ' ', rgb.getD 1 ' ']),
        hexToByte (String.mk [rgb.getD 2 ' ', rgb.getD 2 ' '])]
    else if rgb.length = 8 ∧ hexToByte (String.mk (slice2 rgb 6)) ≠ some 255 then
      .error (.needsAlphaBlending (.str s) (hexToByte (String.mk (slice2 rgb 6))))
    else if rgb.length = 6 ∨ rgb.length = 8 then
      arrayLuminance [hexToByte (String.mk (slice2 rgb 0)), hexToByte (String.mk (slice2 rgb 2)),
        hexToByte (String.mk (slice2 rgb 4))]
    else .error (.unsupportedFormat (.str s))
  else
    match findRgb (s.data.filter (fun c => c != ' ')) with
    | some (d1, d2, d3, al) =>
      match al with
      | some a =>
        if a ≠ ['1'] then .error (.needsAlphaBlending (.str s) (numOfDecimal a))
        else arrayLuminance [numOfDecimal d1, numOfDecimal d2, numOfDecimal d3]
      | none => arrayLuminance [numOfDecimal d1, numOfDecimal d2, numOfDecimal d3]
    | none => .error (.unsupportedFormat (.str s))

/-- The global `CACHE: Record<string, number>` (line 149), as an explicit
finite-map value. -/
abbrev Cache := String → Option (Option ℝ)

def emptyCache : Cache := fun _ => none

def Cache.insert (C : Cache) (k : String) (v : Option ℝ) : Cache :=
  fun s => if s = k then some v else C s

/-- The string branch of `colorLuminance` with its cache stores: each success
path assigns `CACHE[color] = <result>`; a throw leaves the cache unchanged. -/
noncomputable def stringLuminance (s : String) (CACHE : Cache) :
    Except Err (Option ℝ) × Cache :=
  match stringLumResult s with
  | .ok v => (.ok v, Cache.insert CACHE s v)
  | .error e => (.error e, CACHE)

/-- JavaScript truthiness of a cached number: `0` (and `NaN`) are falsy. -/
def truthy (v : Option ℝ) : Prop := ∃ x, v = some x ∧ x ≠ 0

open Classical in
/-- Source `colorLuminance(color, cache = true)` (lines 156-210), with the
global cache passed and returned explicitly.  The lookup short-circuit is
`if (cache && CACHE[color])`, i.e. it fires only when the entry exists and is
truthy; the `cache` flag only gates the lookup, never the stores. -/
noncomputable def colorLuminance (color : Color) (cache : Bool) (CACHE : Cache) :
    Except Err (Option ℝ) × Cache :=
  match color with
  | .str s =>
    match CACHE s with
    | some v => if cache = true ∧ truthy v then (.ok v, CACHE) else stringLuminance s CACHE
    | none => stringLuminance s CACHE
  | .arr a => (arrayLuminance a, CACHE)

/-- Rendering class of a nonnegative JS number in `[0, 1]`: `String(x)` uses
plain decimal notation (`"0"`, `"0.00303"`, `"1"`) exactly when `x = 0` or
`x ≥ 1e-6`; a positive number below `1e-6` is rendered in exponential
notation (`"2.19e-8"`), starting with a nonzero digit. -/
def plainDecimal (x : ℝ) : Prop := x = 0 ∨ (1e-6 : ℝ) ≤ x

open Classical in
/-- Models `[la, lb].sort()` destructured as `[l2, l1]` (line 93).  The
default sort comparator compares the `toString` renderings of the two
numbers.  On the values `colorLuminance` produces (luminances in `[0, 1]`,
or `NaN`):
* two plain-decimal renderings compare lexicographically exactly as they
  compare numerically (the first differing digit decides both, and a proper
  prefix is both lexicographically and numerically smaller), so that case
  sorts numerically;
* a plain-decimal rendering always precedes an exponential rendering
  (`"0.003..." < "2.19e-8"` since `0 < 2`, and `"1"` is a proper prefix of
  any `"1.xxe-N"`), so a positive luminance below `1e-6` always lands in the
  `l1` slot, even when it is numerically the smaller — the divergence behind
  the contrast bug demonstrated in `claim_C2`/`claim_C7`;
* `"NaN"` sorts after every digit-initial rendering;
* when both values are positive and below `1e-6`, the string order depends
  on the mantissa and exponent digits of the underlying floats, which a
  real-number model cannot determine; that case is left unmodelled
  (`none`). -/
noncomputable def jsSortPair : Option ℝ → Option ℝ → Option (Option ℝ × Option ℝ)
  | some x, some y =>
    if plainDecimal x ∧ plainDecimal y then some (some (min x y), some (max x y))
    else if plainDecimal x then some (some x, some y)
    else if plainDecimal y then some (some y, some x)
    else none
  | some x, none => some (some x, none)
  | none, some y => some (some y, none)
  | none, none => some (none, none)

noncomputable def radd : Option ℝ → Option ℝ → Option ℝ
  | some a, some b => some (a + b)
  | _, _ => none

noncomputable def rdiv : Option ℝ → Option ℝ → Option ℝ
  | some a, some b => some (a / b)
  | _, _ => none

/-- Source `contrast` (lines 89-96): `(l1 + 0.05) / (l2 + 0.05)` after the
default sort; exceptions from either luminance computation propagate with
the cache state reached so far.  The outer `Option` is `none` only in the
one sort case `jsSortPair` leaves unmodelled (both luminances positive and
below `1e-6`). -/
noncomputable def contrast (color background : Color) (CACHE : Cache) :
    Option (Except Err (Option ℝ) × Cache) :=
  match colorLuminance color true CACHE with
  | (.error e, C1) => some (.error e, C1)
  | (.ok la, C1) =>
    match colorLuminance background true C1 with
    | (.error e, C2) => some (.error e, C2)
    | (.ok lb, C2) =>
      match jsSortPair la lb with
      | none => none
      | some p => some (.ok (rdiv (radd p.2 (some 0.05)) (radd p.1 (some 0.05))), C2)

/-- A cache state is good when every entry records the luminance the entry's
key actually computes (which is how all entries are created). -/
def GoodCache (C : Cache) : Prop :=
  ∀ s v, C s = some v → stringLumResult s = .ok v

/-- The cache-free luminance of an input. -/
noncomputable def pureLum : Color → Except Err (Option ℝ)
  | .str s => stringLumResult s
  | .arr a => arrayLuminance a

/-- The per-channel linearization formula exactly as the specification words
it, over the reals (for C1): divide by 255, then apply the sRGB transfer
function with the 0.03928 threshold. -/
noncomputable def srgbLinSpec (c : ℝ) : ℝ :=
  if 0.03928 < c then ((c + 0.055) / 1.055) ^ (2.4 : ℝ) else c / 12.92


/-! ### Helper lemmas -/

lemma takeWhile_append_cons {p : Char → Bool} (l : List Char) (x : Char) (r : List Char)
    (hl : ∀ c ∈ l, p c = true) (hx : p x = false) :
    (l ++ x :: r).takeWhile p = l := by
  induction l with
  | nil => simp [List.takeWhile_cons, hx]
  | cons a t ih =>
    have ha : p a = true := hl a (by simp)
    simp [List.takeWhile_cons, ha, ih (fun c hc => hl c (by simp [hc]))]

lemma dropWhile_append_cons {p : Char → Bool} (l : List Char) (x : Char) (r : List Char)
    (hl : ∀ c ∈ l, p c = true) (hx : p x = false) :
    (l ++ x :: r).dropWhile p = x :: r := by
  induction l with
  | nil => simp [List.dropWhile_cons, hx]
  | cons a t ih =>
    have ha : p a = true := hl a (by simp)
    simp [List.dropWhile_cons, ha, ih (fun c hc => hl c (by simp [hc]))]

lemma takeWhile_all {p : Char → Bool} (l : List Char) (hl : ∀ c ∈ l, p c = true) :
    l.takeWhile p = l := by
  induction l with
  | nil => simp
  | cons a t ih =>
    simp [List.takeWhile_cons, hl a (by simp), ih (fun c hc => hl c (by simp [hc]))]

lemma dropWhile_all {p : Char → Bool} (l : List Char) (hl : ∀ c ∈ l, p c = true) :
    l.dropWhile p = [] := by
  induction l with
  | nil => simp
  | cons a t ih =>
    simp [List.dropWhile_cons, hl a (by simp), ih (fun c hc => hl c (by simp [hc]))]

lemma ne_of_hexDigitVal_none {c d : Char} {v : ℕ} (h : hexDigitVal c = some v)
    (hd : hexDigitVal d = none) : c ≠ d := by
  intro e
  rw [e, hd] at h
  cases h

lemma jsWhitespaceChar_of_hex {c : Char} {v : ℕ} (h : hexDigitVal c = some v) :
    jsWhitespaceChar c = false := by
  have h1 := ne_of_hexDigitVal_none h (by decide : hexDigitVal ' ' = none)
  have h2 := ne_of_hexDigitVal_none h (by decide : hexDigitVal '\t' = none)
  have h3 := ne_of_hexDigitVal_none h (by decide : hexDigitVal '\n' = none)
  have h4 := ne_of_hexDigitVal_none h (by decide : hexDigitVal '\r' = none)
  have h5 := ne_of_hexDigitVal_none h (by decide : hexDigitVal '\x0b' = none)
  have h6 := ne_of_hexDigitVal_none h (by decide : hexDigitVal '\x0c' = none)
  have h7 := ne_of_hexDigitVal_none h (by decide : hexDigitVal '\u00A0' = none)
  have h8 := ne_of_hexDigitVal_none h (by decide : hexDigitVal '\uFEFF' = none)
  have h9 := ne_of_hexDigitVal_none h (by decide : hexDigitVal '\u2028' = none)
  have h10 := ne_of_hexDigitVal_none h (by decide : hexDigitVal '\u2029' = none)
  simp [jsWhitespaceChar, h1, h2, h3, h4, h5, h6, h7, h8, h9, h10]

lemma hexValue_pair {a b : Char} {va vb : ℕ} (ha : hexDigitVal a = some va)
    (hb : hexDigitVal b = some vb) : hexValue [a, b] = 16 * va + vb := by
  simp [hexValue, ha, hb]

/-- parseInt(16) of a two-hex-digit string is its base-16 value. -/
lemma parseIntHex_pair {a b : Char} {va vb : ℕ} (ha : hexDigitVal a = some va)
    (hb : hexDigitVal b = some vb) :
    parseIntHex (String.mk [a, b]) = some ((16 * va + vb : ℕ) : ℚ) := by
  have hwa : jsWhitespaceChar a = false := jsWhitespaceChar_of_hex ha
  have hminus : a ≠ '-' := ne_of_hexDigitVal_none ha (by decide)
  have hplus : a ≠ '+' := ne_of_hexDigitVal_none ha (by decide)
  have hbx : b ≠ 'x' := ne_of_hexDigitVal_none hb (by decide)
  have hbX : b ≠ 'X' := ne_of_hexDigitVal_none hb (by decide)
  have hha : isHexDigitChar a = true := by simp [isHexDigitChar, ha]
  have hhb : isHexDigitChar b = true := by simp [isHexDigitChar, hb]
  simp [parseIntHex, List.dropWhile_cons, hwa, hminus, hplus, strip0x, hbx, hbX,
    List.takeWhile_cons, hha, hhb, hexValue_pair ha hb]

lemma numOfDecimal_digits (l : List Char) (hl : ∀ c ∈ l, isDigitChar c = true)
    (hne : l ≠ []) : numOfDecimal l = some ((natval l : ℕ) : ℚ) := by
  simp [numOfDecimal, takeWhile_all l hl, dropWhile_all l hl, hne]

/-! ### Cache and luminance structure lemmas -/

lemma stringLuminance_fst (s : String) (C : Cache) :
    (stringLuminance s C).1 = stringLumResult s := by
  unfold stringLuminance
  cases stringLumResult s <;> rfl

lemma colorLuminance_arr (a : List (Option ℚ)) (flag : Bool) (C : Cache) :
    colorLuminance (.arr a) flag C = (arrayLuminance a, C) := rfl

lemma colorLuminance_str_miss {C : Cache} {s : String} (h : C s = none) (flag : Bool) :
    colorLuminance (.str s) flag C = stringLuminance s C := by
  simp only [colorLuminance]
  rw [h]

lemma colorLuminance_str_hit {C : Cache} {s : String} {v : Option ℝ} (h : C s = some v)
    (hv : truthy v) : colorLuminance (.str s) true C = (.ok v, C) := by
  simp only [colorLuminance]
  rw [h]
  simp [hv]

lemma colorLuminance_str_stale {C : Cache} {s : String} {v : Option ℝ} (h : C s = some v)
    (hv : ¬ truthy v) (flag : Bool) :
    colorLuminance (.str s) flag C = stringLuminance s C := by
  simp only [colorLuminance]
  rw [h]
  simp [hv]

lemma goodCache_empty : GoodCache emptyCache := by
  intro s v h
  cases h

/-- The value returned by `colorLuminance` does not depend on a good cache. -/
lemma colorLuminance_fst {C : Cache} (hC : GoodCache C) (x : Color) (flag : Bool) :
    (colorLuminance x flag C).1 = pureLum x := by
  cases x with
  | arr a => rfl
  | str s =>
    rcases hCs : C s with _ | v
    · rw [colorLuminance_str_miss hCs, stringLuminance_fst]
      rfl
    · by_cases hv : flag = true ∧ truthy v
      · rcases flag
        · exact absurd hv.1 (by simp)
        · rw [colorLuminance_str_hit hCs hv.2]
          exact (hC s v hCs).symm
      · simp only [colorLuminance]
        rw [hCs]
        simp only [if_neg hv, stringLuminance_fst]
        rfl

/-- Every call preserves cache goodness. -/
lemma goodCache_step {C : Cache} (hC : GoodCache C) (x : Color) (flag : Bool) :
    GoodCache (colorLuminance x flag C).2 := by
  cases x with
  | arr a => exact hC
  | str s =>
    have hins : GoodCache (stringLuminance s C).2 := by
      unfold stringLuminance
      rcases hres : stringLumResult s with e | v
      · exact hC
      · intro t w ht
        by_cases hts : t = s
        · subst hts
          simp [Cache.insert] at ht
          rw [← ht]
          exact hres
        · simp [Cache.insert, hts] at ht
          exact hC t w ht
    rcases hCs : C s with _ | v
    · rw [colorLuminance_str_miss hCs]
      exact hins
    · by_cases hv : flag = true ∧ truthy v
      · rcases flag
        · exact absurd hv.1 (by simp)
        · rw [colorLuminance_str_hit hCs hv.2]
          exact hC
      · simp only [colorLuminance]
        rw [hCs]
        simp only [if_neg hv]
        exact hins

/-- No cache entry is ever removed or changed by a call. -/
lemma cache_mono {C : Cache} (hC : GoodCache C) (x : Color) (flag : Bool)
    {t : String} {w : Option ℝ} (ht : C t = some w) :
    (colorLuminance x flag C).2 t = some w := by
  cases x with
  | arr a => exact ht
  | str s =>
    have hins : (stringLuminance s C).2 t = some w := by
      unfold stringLuminance
      rcases hres : stringLumResult s with e | v
      · exact ht
      · by_cases hts : t = s
        · subst hts
          have := hC t w ht
          rw [this] at hres
          cases hres
          simp [Cache.insert]
        · simp [Cache.insert, hts]
          exact ht
    rcases hCs : C s with _ | v
    · rw [colorLuminance_str_miss hCs]
      exact hins
    · by_cases hv : flag = true ∧ truthy v
      · rcases flag
        · exact absurd hv.1 (by simp)
        · rw [colorLuminance_str_hit hCs hv.2]
          exact ht
      · simp only [colorLuminance]
        rw [hCs]
        simp only [if_neg hv]
        exact hins

/-! ### Branch characterizations of the string parser -/

lemma stringLumResult_hex3 {s : String} {c1 c2 c3 : Char}
    (h : s.data = ['#', c1, c2, c3]) :
    stringLumResult s = arrayLuminance [hexToByte (String.mk [c1, c1]),
      hexToByte (String.mk [c2, c2]), hexToByte (String.mk [c3, c3])] := by
  simp [stringLumResult, h]

lemma stringLumResult_hex6 {s : String} {c1 c2 c3 c4 c5 c6 : Char}
    (h : s.data = ['#', c1, c2, c3, c4, c5, c6]) :
    stringLumResult s = arrayLuminance [hexToByte (String.mk [c1, c2]),
      hexToByte (String.mk [c3, c4]), hexToByte (String.mk [c5, c6])] := by
  simp [stringLumResult, h, slice2]

lemma stringLumResult_hex8_alpha {s : String} {c1 c2 c3 c4 c5 c6 c7 c8 : Char}
    (h : s.data = ['#', c1, c2, c3, c4, c5, c6, c7, c8])
    (halpha : hexToByte (String.mk [c7, c8]) ≠ some 255) :
    stringLumResult s
      = .error (.needsAlphaBlending (.str s) (hexToByte (String.mk [c7, c8]))) := by
  simp [stringLumResult, h, slice2, halpha]

lemma stringLumResult_hex8_ff {s : String} {c1 c2 c3 c4 c5 c6 c7 c8 : Char}
    (h : s.data = ['#', c1, c2, c3, c4, c5, c6, c7, c8])
    (halpha : hexToByte (String.mk [c7, c8]) = some 255) :
    stringLumResult s = arrayLuminance [hexToByte (String.mk [c1, c2]),
      hexToByte (String.mk [c3, c4]), hexToByte (String.mk [c5, c6])] := by
  simp [stringLumResult, h, slice2, halpha]

lemma stringLumResult_rgb_none {s : String} (hh : s.data.head? ≠ some '#')
    (hf : findRgb (s.data.filter (fun c => c != ' ')) = none) :
    stringLumResult s = .error (.unsupportedFormat (.str s)) := by
  simp [stringLumResult, hh, hf]

lemma stringLumResult_rgb_noalpha {s : String} {d1 d2 d3 : List Char}
    (hh : s.data.head? ≠ some '#')
    (hf : findRgb (s.data.filter (fun c => c != ' ')) = some (d1, d2, d3, none)) :
    stringLumResult s = arrayLuminance [numOfDecimal d1, numOfDecimal d2, numOfDecimal d3] := by
  simp [stringLumResult, hh, hf]

lemma stringLumResult_rgb_alpha1 {s : String} {d1 d2 d3 : List Char}
    (hh : s.data.head? ≠ some '#')
    (hf : findRgb (s.data.filter (fun c => c != ' ')) = some (d1, d2, d3, some ['1'])) :
    stringLumResult s = arrayLuminance [numOfDecimal d1, numOfDecimal d2, numOfDecimal d3] := by
  simp [stringLumResult, hh, hf]

lemma stringLumResult_rgb_alphaNe {s : String} {d1 d2 d3 a : List Char}
    (hh : s.data.head? ≠ some '#')
    (hf : findRgb (s.data.filter (fun c => c != ' ')) = some (d1, d2, d3, some a))
    (hne : a ≠ ['1']) :
    stringLumResult s = .error (.needsAlphaBlending (.str s) (numOfDecimal a)) := by
  simp [stringLumResult, hh, hf, hne]

/-! ### Range and bound lemmas -/

lemma outOfRange_false_iff {x : ℚ} : outOfRange (some x) = false ↔ 0 ≤ x ∧ x ≤ 255 := by
  simp [outOfRange, not_lt]

lemma linearize_mem {x : ℚ} (h0 : 0 ≤ x) (h1 : x ≤ 255) {y : ℝ}
    (hy : linearize (some (x / 255)) = some y) : 0 ≤ y ∧ y ≤ 1 := by
  have hc0 : (0 : ℝ) ≤ ((x / 255 : ℚ) : ℝ) := by
    have : (0 : ℚ) ≤ x / 255 := by positivity
    exact_mod_cast this
  have hc1 : ((x / 255 : ℚ) : ℝ) ≤ 1 := by
    have hq : (x / 255 : ℚ) ≤ 1 := by
      rw [div_le_one (by norm_num)]
      exact h1
    exact_mod_cast hq
  simp only [linearize] at hy
  split at hy
  · have hb0 : (0 : ℝ) ≤ (((x / 255 : ℚ) : ℝ) + 0.055) / 1.055 :=
      div_nonneg (by linarith) (by norm_num)
    have hb1 : (((x / 255 : ℚ) : ℝ) + 0.055) / 1.055 ≤ 1 := by
      rw [div_le_one (by norm_num)]
      linarith
    have hyv := Option.some_inj.1 hy
    subst hyv
    exact ⟨Real.rpow_nonneg hb0 _, Real.rpow_le_one hb0 hb1 (by norm_num)⟩
  · have hyv := Option.some_inj.1 hy
    subst hyv
    constructor
    · exact div_nonneg hc0 (by norm_num)
    · rw [div_le_one (by norm_num)]
      linarith

lemma componentsToLuminance_none_fst (g b : Option ℚ) :
    componentsToLuminance none g b = none := rfl

lemma componentsToLuminance_none_snd (r b : Option ℚ) :
    componentsToLuminance r none b = none := by
  rcases hl : linearize r with _ | y <;>
    simp [componentsToLuminance, hl, show linearize none = none from rfl]

lemma componentsToLuminance_none_trd (r g : Option ℚ) :
    componentsToLuminance r g none = none := by
  rcases hl : linearize r with _ | y <;>
    rcases hg : linearize g with _ | z <;>
    simp [componentsToLuminance, hl, hg, show linearize none = none from rfl]

lemma componentsToLuminance_mem {q1 q2 q3 : Option ℚ} {l : ℝ}
    (h1 : outOfRange q1 = false) (h2 : outOfRange q2 = false) (h3 : outOfRange q3 = false)
    (h : componentsToLuminance (qdiv255 q1) (qdiv255 q2) (qdiv255 q3) = some l) :
    0 ≤ l ∧ l ≤ 1 := by
  rcases q1 with _ | x1
  · rw [show qdiv255 none = none from rfl, componentsToLuminance_none_fst] at h
    cases h
  rcases q2 with _ | x2
  · rw [show qdiv255 none = none from rfl, componentsToLuminance_none_snd] at h
    cases h
  rcases q3 with _ | x3
  · rw [show qdiv255 none = none from rfl, componentsToLuminance_none_trd] at h
    cases h
  obtain ⟨hx10, hx11⟩ := outOfRange_false_iff.1 h1
  obtain ⟨hx20, hx21⟩ := outOfRange_false_iff.1 h2
  obtain ⟨hx30, hx31⟩ := outOfRange_false_iff.1 h3
  simp only [qdiv255, componentsToLuminance] at h
  rcases hl1 : linearize (some (x1 / 255)) with _ | y1
  · rw [hl1] at h
    cases h
  rcases hl2 : linearize (some (x2 / 255)) with _ | y2
  · rw [hl1, hl2] at h
    cases h
  rcases hl3 : linearize (some (x3 / 255)) with _ | y3
  · rw [hl1, hl2, hl3] at h
    cases h
  rw [hl1, hl2, hl3] at h
  have hl := Option.some_inj.1 h
  obtain ⟨hy10, hy11⟩ := linearize_mem hx10 hx11 hl1
  obtain ⟨hy20, hy21⟩ := linearize_mem hx20 hx21 hl2
  obtain ⟨hy30, hy31⟩ := linearize_mem hx30 hx31 hl3
  constructor
  · nlinarith
  · nlinarith

lemma assertRgbColor_none_three {q1 q2 q3 : Option ℚ}
    (h1 : outOfRange q1 = false) (h2 : outOfRange q2 = false) (h3 : outOfRange q3 = false) :
    assertRgbColor [q1, q2, q3] = none := by
  simp [assertRgbColor, h1, h2, h3]

lemma arrayLuminance_three {q1 q2 q3 : Option ℚ}
    (h1 : outOfRange q1 = false) (h2 : outOfRange q2 = false) (h3 : outOfRange q3 = false) :
    arrayLuminance [q1, q2, q3]
      = .ok (componentsToLuminance (qdiv255 q1) (qdiv255 q2) (qdiv255 q3)) := by
  simp [arrayLuminance, assertRgbColor_none_three h1 h2 h3]

lemma assertRgbColor_none_inv {a : List (Option ℚ)} (h : assertRgbColor a = none) :
    3 ≤ a.length ∧ a.length ≤ 4 ∧ ∀ q ∈ a, outOfRange q = false := by
  unfold assertRgbColor at h
  split at h
  · cases h
  · next hcond =>
    push_neg at hcond
    obtain ⟨hl3, hl4, hany⟩ := hcond
    refine ⟨by omega, by omega, ?_⟩
    intro q hq
    rcases hb : outOfRange q with _ | _
    · rfl
    · exact absurd (List.any_eq_true.2 ⟨q, hq, hb⟩) hany

lemma arrayLuminance_num_bounds {a : List (Option ℚ)} {l : ℝ}
    (h : arrayLuminance a = .ok (some l)) : 0 ≤ l ∧ l ≤ 1 := by
  unfold arrayLuminance at h
  rcases ha : assertRgbColor a with _ | e
  · rw [ha] at h
    simp only [Except.ok.injEq] at h
    obtain ⟨h3, _, hall⟩ := assertRgbColor_none_inv ha
    have g0 : outOfRange (a.getD 0 none) = false := by
      rw [List.getD_eq_getElem a none (by omega)]
      exact hall _ (List.getElem_mem (by omega))
    have g1 : outOfRange (a.getD 1 none) = false := by
      rw [List.getD_eq_getElem a none (by omega)]
      exact hall _ (List.getElem_mem (by omega))
    have g2 : outOfRange (a.getD 2 none) = false := by
      rw [List.getD_eq_getElem a none (by omega)]
      exact hall _ (List.getElem_mem (by omega))
    exact componentsToLuminance_mem g0 g1 g2 h
  · rw [ha] at h
    cases h

lemma pureLum_num_bounds {x : Color} {l : ℝ} (h : pureLum x = .ok (some l)) :
    0 ≤ l ∧ l ≤ 1 := by
  cases x with
  | arr a => exact arrayLuminance_num_bounds h
  | str s =>
    simp only [pureLum] at h
    unfold stringLumResult at h
    split at h
    · dsimp only [] at h
      split at h
      · exact arrayLuminance_num_bounds h
      · split at h
        · cases h
        · split at h
          · exact arrayLuminance_num_bounds h
          · cases h
    · split at h
      · split at h
        · split at h
          · cases h
          · exact arrayLuminance_num_bounds h
        · exact arrayLuminance_num_bounds h
      · cases h

/-! ### Concrete evaluation lemmas -/

lemma outOfRange_zero : outOfRange (some 0) = false :=
  outOfRange_false_iff.2 (by norm_num)

lemma outOfRange_255 : outOfRange (some 255) = false :=
  outOfRange_false_iff.2 (by norm_num)

lemma linearize_zero : linearize (some 0) = some 0 := by
  rw [show (some (0 : ℚ)) = some ((0 : ℚ) / 255) by norm_num]
  simp only [linearize]
  rw [if_neg (by norm_num)]
  norm_num

lemma lum_black_arr : arrayLuminance [some 0, some 0, some 0] = .ok (some 0) := by
  rw [arrayLuminance_three outOfRange_zero outOfRange_zero outOfRange_zero]
  have hq : qdiv255 (some 0) = some 0 := by
    simp only [qdiv255]
    norm_num
  rw [hq]
  simp only [componentsToLuminance, linearize_zero]
  norm_num

lemma linearize_one : linearize (some 1) = some 1 := by
  simp only [linearize]
  rw [if_pos (by norm_num : (0.03928 : ℚ) < 1)]
  have hb : (((1 : ℚ) : ℝ) + 0.055) / 1.055 = 1 := by norm_num
  rw [hb, Real.one_rpow]

lemma lum_white_arr : arrayLuminance [some 255, some 255, some 255] = .ok (some 1) := by
  rw [arrayLuminance_three outOfRange_255 outOfRange_255 outOfRange_255]
  have hq : qdiv255 (some 255) = some 1 := by
    simp only [qdiv255]
    norm_num
  rw [hq]
  simp only [componentsToLuminance, linearize_one]
  norm_num

/-! ### Claim theorems -/

/-- C6: luminance of black `[0,0,0]` equals exactly `0` and luminance of white
`[255,255,255]` equals exactly `1` in the default (relative) mode. -/
theorem claim_C6 :
    (colorLuminance (.arr [some 0, some 0, some 0]) true emptyCache).1 = .ok (some 0)
  ∧ (colorLuminance (.arr [some 255, some 255, some 255]) true emptyCache).1 = .ok (some 1) := by
  rw [colorLuminance_arr, colorLuminance_arr]
  exact ⟨lum_black_arr, lum_white_arr⟩

lemma hexToByte_zz : hexToByte (String.mk ['z', 'z']) = none := by
  norm_num +decide [hexToByte, parseIntHex, jsWhitespaceChar, isHexDigitChar, hexDigitVal,
    strip0x, List.dropWhile_cons, List.takeWhile_cons]

/-- C9: the string input made of `#` followed by three non-hexadecimal
characters, `"#zzz"`, raises no error: hex-to-byte conversion yields `NaN`
(`none`), the range check does not reject the `NaN` components, and
`colorLuminance` returns `NaN` (and even caches it). -/
theorem claim_C9 :
    colorLuminance (.str (String.mk ['#', 'z', 'z', 'z'])) true emptyCache
      = (.ok none, Cache.insert emptyCache (String.mk ['#', 'z', 'z', 'z']) none) := by
  rw [colorLuminance_str_miss rfl]
  have hres : stringLumResult (String.mk ['#', 'z', 'z', 'z']) = .ok none := by
    rw [stringLumResult_hex3 rfl, hexToByte_zz,
      arrayLuminance_three (show outOfRange none = false from rfl)
        (show outOfRange none = false from rfl) (show outOfRange none = false from rfl),
      show qdiv255 none = none from rfl, componentsToLuminance_none_fst]
  unfold stringLuminance
  rw [hres]

lemma linearize_eq_spec (x : ℚ) :
    linearize (qdiv255 (some x)) = some (srgbLinSpec ((x : ℝ) / 255)) := by
  simp only [qdiv255, linearize, srgbLinSpec]
  have hcast : ((x / 255 : ℚ) : ℝ) = (x : ℝ) / 255 := by push_cast; ring
  have hlit : ((0.03928 : ℚ) : ℝ) = (0.03928 : ℝ) := by norm_num
  by_cases hc : (0.03928 : ℚ) < x / 255
  · have hc2 : (0.03928 : ℝ) < (x : ℝ) / 255 := by
      rw [← hcast, ← hlit]
      exact Rat.cast_lt.2 hc
    rw [if_pos hc, if_pos hc2, hcast]
  · have hc2 : ¬ (0.03928 : ℝ) < (x : ℝ) / 255 := by
      rw [← hcast, ← hlit]
      exact fun hlt => hc (Rat.cast_lt.1 hlt)
    rw [if_neg hc, if_neg hc2, hcast]

lemma componentsToLuminance_eq_spec (r g b : ℚ) :
    componentsToLuminance (qdiv255 (some r)) (qdiv255 (some g)) (qdiv255 (some b))
      = some (0.2126 * srgbLinSpec ((r : ℝ) / 255) + 0.7152 * srgbLinSpec ((g : ℝ) / 255)
          + 0.0722 * srgbLinSpec ((b : ℝ) / 255)) := by
  simp only [componentsToLuminance, linearize_eq_spec]

/-- C1: for every RGB triple with components in `[0, 255]`, the default
(relative-mode) luminance is the weighted sum
`0.2126 * R_lin + 0.7152 * G_lin + 0.0722 * B_lin` where each channel is
divided by 255 and then linearized as `((c + 0.055) / 1.055) ^ 2.4` when
`c > 0.03928` and as `c / 12.92` otherwise. -/
theorem claim_C1 (r g b : ℚ) (hr0 : 0 ≤ r) (hr1 : r ≤ 255) (hg0 : 0 ≤ g) (hg1 : g ≤ 255)
    (hb0 : 0 ≤ b) (hb1 : b ≤ 255) (C : Cache) :
    colorLuminance (.arr [some r, some g, some b]) true C
      = (.ok (some (0.2126 * srgbLinSpec ((r : ℝ) / 255) + 0.7152 * srgbLinSpec ((g : ℝ) / 255)
          + 0.0722 * srgbLinSpec ((b : ℝ) / 255))), C) := by
  rw [colorLuminance_arr,
    arrayLuminance_three (outOfRange_false_iff.2 ⟨hr0, hr1⟩) (outOfRange_false_iff.2 ⟨hg0, hg1⟩)
      (outOfRange_false_iff.2 ⟨hb0, hb1⟩),
    componentsToLuminance_eq_spec]

/-- Witness for C1 at the concrete triple `[0, 0, 0]`. -/
theorem claim_C1_witness :
    colorLuminance (.arr [some 0, some 0, some 0]) true emptyCache
      = (.ok (some (0.2126 * srgbLinSpec ((0 : ℝ) / 255) + 0.7152 * srgbLinSpec ((0 : ℝ) / 255)
          + 0.0722 * srgbLinSpec ((0 : ℝ) / 255))), emptyCache) := by
  have h := claim_C1 0 0 0 (le_refl 0) (by norm_num) (le_refl 0) (by norm_num) (le_refl 0)
    (by norm_num) emptyCache
  simpa using h

/-! ### Contrast lemmas -/

/-! ### C2 and C7: the contrast bug -/

lemma lum_grey10_arr : arrayLuminance [some 10, some 10, some 10]
    = .ok (some ((50 : ℝ) / 16473)) := by
  rw [arrayLuminance_three (outOfRange_false_iff.2 (by norm_num))
    (outOfRange_false_iff.2 (by norm_num)) (outOfRange_false_iff.2 (by norm_num))]
  have hlin : linearize (qdiv255 (some 10)) = some (((10 / 255 : ℚ) : ℝ) / 12.92) := by
    simp only [qdiv255, linearize]
    rw [if_neg (by norm_num)]
  simp only [componentsToLuminance, hlin]
  norm_num

lemma lum_tiny_arr : arrayLuminance [some 0, some 0, some (0.001 : ℚ)]
    = .ok (some ((361 : ℝ) / 16473000000)) := by
  rw [arrayLuminance_three outOfRange_zero outOfRange_zero
    (outOfRange_false_iff.2 (by norm_num))]
  have hq0 : qdiv255 (some 0) = some 0 := by
    simp only [qdiv255]
    norm_num
  have hlin : linearize (qdiv255 (some (0.001 : ℚ)))
      = some (((0.001 / 255 : ℚ) : ℝ) / 12.92) := by
    simp only [qdiv255, linearize]
    rw [if_neg (by norm_num)]
  rw [hq0]
  simp only [componentsToLuminance, linearize_zero, hlin]
  norm_num

lemma plainDecimal_grey : plainDecimal ((50 : ℝ) / 16473) := Or.inr (by norm_num)

lemma not_plainDecimal_tiny : ¬ plainDecimal ((361 : ℝ) / 16473000000) := by
  rintro (h | h) <;> norm_num at h

lemma jsSortPair_tiny_grey :
    jsSortPair (some ((361 : ℝ) / 16473000000)) (some ((50 : ℝ) / 16473))
      = some (some ((50 : ℝ) / 16473), some ((361 : ℝ) / 16473000000)) := by
  simp only [jsSortPair]
  rw [if_neg (fun hcon => not_plainDecimal_tiny hcon.1),
    if_neg not_plainDecimal_tiny, if_pos plainDecimal_grey]

lemma jsSortPair_grey_tiny :
    jsSortPair (some ((50 : ℝ) / 16473)) (some ((361 : ℝ) / 16473000000))
      = some (some ((50 : ℝ) / 16473), some ((361 : ℝ) / 16473000000)) := by
  simp only [jsSortPair]
  rw [if_neg (fun hcon => not_plainDecimal_tiny hcon.2), if_pos plainDecimal_grey]

lemma contrast_pair_arr {a1 a2 : List (Option ℚ)} {la lb : ℝ} (C : Cache)
    (ha : arrayLuminance a1 = .ok (some la)) (hb : arrayLuminance a2 = .ok (some lb)) :
    contrast (.arr a1) (.arr a2) C
      = (jsSortPair (some la) (some lb)).map
          (fun p => (.ok (rdiv (radd p.2 (some 0.05)) (radd p.1 (some 0.05))), C)) := by
  unfold contrast
  rw [show colorLuminance (.arr a1) true C = (Except.ok (some la), C) by
    rw [colorLuminance_arr, ha]]
  dsimp only
  rw [show colorLuminance (.arr a2) true C = (Except.ok (some lb), C) by
    rw [colorLuminance_arr, hb]]
  dsimp only
  rcases hj : jsSortPair (some la) (some lb) with _ | p
  · rfl
  · rfl

/-- C2: the claimed formula fails on the code (a code bug).  At the valid
pair `[0, 0, 0.001]` (luminance `361/16473000000 ≈ 2.19e-8`, which JS
renders in exponential notation) against `[10, 10, 10]` (luminance
`50/16473 ≈ 0.003`), the comparator-less default sort compares string
renderings and puts the tiny luminance in the `l1` slot, so `contrast`
returns `(smaller + 0.05) / (larger + 0.05)` — a value different from the
claimed `(l1 + 0.05) / (l2 + 0.05)` with `l1` the larger of the two. -/
theorem claim_C2 :
    contrast (.arr [some 0, some 0, some (0.001 : ℚ)]) (.arr [some 10, some 10, some 10])
        emptyCache
      = some (.ok (some (((361 : ℝ) / 16473000000 + 0.05) / ((50 : ℝ) / 16473 + 0.05))),
          emptyCache)
  ∧ ((361 : ℝ) / 16473000000 + 0.05) / ((50 : ℝ) / 16473 + 0.05)
      ≠ (max ((361 : ℝ) / 16473000000) ((50 : ℝ) / 16473) + 0.05)
          / (min ((361 : ℝ) / 16473000000) ((50 : ℝ) / 16473) + 0.05) := by
  constructor
  · rw [contrast_pair_arr emptyCache lum_tiny_arr lum_grey10_arr, jsSortPair_tiny_grey]
    rfl
  · have hlt : (361 : ℝ) / 16473000000 < (50 : ℝ) / 16473 := by norm_num
    rw [max_eq_right hlt.le, min_eq_left hlt.le]
    intro hcon
    have h1 : ((361 : ℝ) / 16473000000 + 0.05) / ((50 : ℝ) / 16473 + 0.05) < 1 := by
      rw [div_lt_one (by norm_num)]
      norm_num
    have h2 : (1 : ℝ) < ((50 : ℝ) / 16473 + 0.05) / ((361 : ℝ) / 16473000000 + 0.05) := by
      rw [lt_div_iff (by norm_num)]
      norm_num
    rw [hcon] at h1
    linarith

/-- C7: the claimed `[1, 21]` bound fails on the code (a code bug; the
source's own doc comment promises a result between 1 and 21).  For the
valid pair `[10, 10, 10]` against `[0, 0, 0.001]`, whose second luminance
`361/16473000000 ≈ 2.19e-8` is rendered exponentially and therefore sorted
into the `l1` slot by the string-comparing default sort, `contrast` returns
`(2.19e-8 + 0.05) / (0.003 + 0.05) ≈ 0.943`, which is below 1. -/
theorem claim_C7 :
    contrast (.arr [some 10, some 10, some 10]) (.arr [some 0, some 0, some (0.001 : ℚ)])
        emptyCache
      = some (.ok (some (((361 : ℝ) / 16473000000 + 0.05) / ((50 : ℝ) / 16473 + 0.05))),
          emptyCache)
  ∧ ((361 : ℝ) / 16473000000 + 0.05) / ((50 : ℝ) / 16473 + 0.05) < 1 := by
  constructor
  · rw [contrast_pair_arr emptyCache lum_grey10_arr lum_tiny_arr, jsSortPair_grey_tiny]
    rfl
  · rw [div_lt_one (by norm_num)]
    norm_num

/-! ### Cache step lemmas for the cache claims -/

lemma colorLuminance_str_cases (s : String) (flag : Bool) (C : Cache) :
    colorLuminance (.str s) flag C = stringLuminance s C
  ∨ ∃ v, C s = some v ∧ truthy v ∧ flag = true
      ∧ colorLuminance (.str s) flag C = (.ok v, C) := by
  rcases hCs : C s with _ | v
  · exact Or.inl (colorLuminance_str_miss hCs flag)
  · by_cases hv : flag = true ∧ truthy v
    · obtain ⟨hf, ht⟩ := hv
      subst hf
      exact Or.inr ⟨v, rfl, ht, rfl, colorLuminance_str_hit hCs ht⟩
    · left
      simp only [colorLuminance]
      rw [hCs]
      simp [if_neg hv]

lemma stringLuminance_ok {s : String} {v : Option ℝ} (h : stringLumResult s = .ok v)
    (C : Cache) : stringLuminance s C = (.ok v, Cache.insert C s v) := by
  unfold stringLuminance
  rw [h]

lemma stringLuminance_err {s : String} {e : Err} (h : stringLumResult s = .error e)
    (C : Cache) : stringLuminance s C = (.error e, C) := by
  unfold stringLuminance
  rw [h]

lemma colorLuminance_str_of_error {C : Cache} {s : String} {e : Err} (hC : GoodCache C)
    (h : stringLumResult s = .error e) (flag : Bool) :
    colorLuminance (.str s) flag C = (.error e, C) := by
  rcases hCs : C s with _ | v
  · rw [colorLuminance_str_miss hCs, stringLuminance_err h]
  · have hgood := hC s v hCs
    rw [hgood] at h
    cases h

lemma goodCache_single {s : String} {v : Option ℝ} (h : stringLumResult s = .ok v) :
    GoodCache (Cache.insert emptyCache s v) := by
  intro t w ht
  by_cases hts : t = s
  · subst hts
    have hv2 : some v = some w := by
      rw [← ht]
      simp [Cache.insert]
    rw [← Option.some_inj.1 hv2]
    exact h
  · simp only [Cache.insert, if_neg hts] at ht
    cases ht

/-- C10: the cache lookup short-circuits only for a nonzero stored luminance.
A string cached with a nonzero value is returned as-is, without reparsing and
with the cache untouched; a string cached with luminance `0` is re-parsed and
recomputed on every call (the call behaves exactly like the cache-bypassing
path), though with a good cache the returned value is the same `0`. -/
theorem claim_C10 (s : String) (C : Cache) :
    (∀ x : ℝ, C s = some (some x) → x ≠ 0 →
      colorLuminance (.str s) true C = (.ok (some x), C))
  ∧ (C s = some (some 0) →
      colorLuminance (.str s) true C = stringLuminance s C
      ∧ (GoodCache C → (colorLuminance (.str s) true C).1 = .ok (some 0))) := by
  constructor
  · intro x hx hxne
    exact colorLuminance_str_hit hx ⟨x, rfl, hxne⟩
  · intro h0
    have hnt : ¬ truthy (some (0 : ℝ)) := by
      rintro ⟨x, hx, hxne⟩
      exact hxne (Option.some_inj.1 hx).symm
    refine ⟨colorLuminance_str_stale h0 hnt true, fun hC => ?_⟩
    rw [colorLuminance_fst hC (.str s) true]
    exact hC s (some 0) h0

lemma hexToByte_00 : hexToByte (String.mk ['0', '0']) = some 0 := by
  have h := @parseIntHex_pair '0' '0' 0 0 (by decide) (by decide)
  rw [hexToByte, h]
  norm_num

lemma stringLumResult_black : stringLumResult (String.mk ['#', '0', '0', '0'])
    = .ok (some 0) := by
  rw [stringLumResult_hex3 rfl, hexToByte_00, lum_black_arr]

/-- Witness for C10: with `"#000"` cached at its luminance `0`, the call
recomputes (it equals the no-lookup path) and still returns `0`. -/
theorem claim_C10_witness :
    colorLuminance (.str (String.mk ['#', '0', '0', '0'])) true
        (Cache.insert emptyCache (String.mk ['#', '0', '0', '0']) (some 0))
      = stringLuminance (String.mk ['#', '0', '0', '0'])
          (Cache.insert emptyCache (String.mk ['#', '0', '0', '0']) (some 0))
  ∧ (colorLuminance (.str (String.mk ['#', '0', '0', '0'])) true
        (Cache.insert emptyCache (String.mk ['#', '0', '0', '0']) (some 0))).1
      = .ok (some 0) := by
  have hlook : Cache.insert emptyCache (String.mk ['#', '0', '0', '0']) (some 0)
      (String.mk ['#', '0', '0', '0']) = some (some 0) := by
    simp [Cache.insert]
  have h := (claim_C10 (String.mk ['#', '0', '0', '0'])
    (Cache.insert emptyCache (String.mk ['#', '0', '0', '0']) (some 0))).2 hlook
  exact ⟨h.1, h.2 (goodCache_single stringLumResult_black)⟩

/-- C8: the cache maps only literal string inputs to their computed
luminance: every call preserves that invariant, array inputs and failing
calls leave the cache unchanged, a successful string call yields exactly the
insertion of the final result under the original string, and no entry is
ever removed or changed. -/
theorem claim_C8 (x : Color) (flag : Bool) (C : Cache) (hC : GoodCache C) :
    GoodCache (colorLuminance x flag C).2
  ∧ (∀ a, x = .arr a → (colorLuminance x flag C).2 = C)
  ∧ (∀ e, (colorLuminance x flag C).1 = .error e → (colorLuminance x flag C).2 = C)
  ∧ (∀ s v, x = .str s → (colorLuminance x flag C).1 = .ok v →
      (colorLuminance x flag C).2 = Cache.insert C s v
        ∨ ((colorLuminance x flag C).2 = C ∧ C s = some v))
  ∧ (∀ t w, C t = some w → (colorLuminance x flag C).2 t = some w) := by
  refine ⟨goodCache_step hC x flag, ?_, ?_, ?_, fun t w ht => cache_mono hC x flag ht⟩
  · rintro a rfl
    rfl
  · intro e he
    cases x with
    | arr a => rfl
    | str s =>
      rcases colorLuminance_str_cases s flag C with hcl | ⟨v0, hCs, htr, hf, hcl⟩
      · rw [hcl] at he ⊢
        rcases hres : stringLumResult s with e2 | v2
        · rw [stringLuminance_err hres]
        · rw [stringLuminance_ok hres] at he
          cases he
      · rw [hcl] at he
        cases he
  · rintro s v rfl hok
    rcases colorLuminance_str_cases s flag C with hcl | ⟨v0, hCs, htr, hf, hcl⟩
    · rw [hcl] at hok ⊢
      rcases hres : stringLumResult s with e2 | v2
      · rw [stringLuminance_err hres] at hok
        cases hok
      · rw [stringLuminance_ok hres] at hok ⊢
        left
        rw [Except.ok.inj hok]
    · rw [hcl] at hok ⊢
      right
      have hv0 : v0 = v := Except.ok.inj hok
      subst hv0
      exact ⟨rfl, hCs⟩

/-- Witness for C8: an array call on the empty cache leaves the cache empty. -/
theorem claim_C8_witness :
    (colorLuminance (.arr [some 0, some 0, some 0]) true emptyCache).2
        (String.mk ['#', '0', '0', '0']) = none := by
  have h := (claim_C8 (.arr [some 0, some 0, some 0]) true emptyCache goodCache_empty).2.1
    [some 0, some 0, some 0] rfl
  rw [h]
  rfl

/-! ### C3: NeedsAlphaBlending -/

lemma assertRgbColor_four_alpha {x1 x2 x3 x4 : ℚ}
    (h1 : outOfRange (some x1) = false) (h2 : outOfRange (some x2) = false)
    (h3 : outOfRange (some x3) = false) (h4 : outOfRange (some x4) = false)
    (hne : x4 ≠ 1) :
    assertRgbColor [some x1, some x2, some x3, some x4]
      = some (.needsAlphaBlending (.arr [some x1, some x2, some x3, some x4]) (some x4)) := by
  simp [assertRgbColor, h1, h2, h3, h4, hne]

/-- Counterexample to C3 as stated: `[0, 0, 0, 300]` is a 4-element numeric
array whose 4th element is not 1, yet parsing fails with `UnsupportedFormat`
(the range check runs before the alpha check), not `NeedsAlphaBlending`. -/
theorem claim_C3_counterexample :
    (colorLuminance (.arr [some 0, some 0, some 0, some 300]) true emptyCache).1
      = .error (.unsupportedFormat (.arr [some 0, some 0, some 0, some 300])) := by
  rw [colorLuminance_arr]
  have ha : assertRgbColor [some 0, some 0, some 0, some (300 : ℚ)]
      = some (.unsupportedFormat (.arr [some 0, some 0, some 0, some 300])) := by
    have hoor : outOfRange (some (300 : ℚ)) = true := by
      simp [outOfRange]
      norm_num
    simp [assertRgbColor, hoor]
  show arrayLuminance [some 0, some 0, some 0, some 300]
      = .error (.unsupportedFormat (.arr [some 0, some 0, some 0, some 300]))
  unfold arrayLuminance
  rw [ha]

/-- C3 (amended): every syntactically valid but not fully opaque input fails
with `NeedsAlphaBlending` carrying the offending literal and the parsed
alpha — a hex string of 8 hex digits whose last byte is not `0xFF`, a
functional-notation string whose matched alpha capture is present and not
the literal `"1"`, or a 4-element numeric array with components in
`[0, 255]` whose 4th element is not 1.  (The amendment restricts the array
case to in-range components: out-of-range arrays fail with
`UnsupportedFormat` instead, as the counterexample shows.) -/
theorem claim_C3 :
    (∀ (s : String) (c1 c2 c3 c4 c5 c6 c7 c8 : Char) (v1 v2 v3 v4 v5 v6 v7 v8 : ℕ)
      (C : Cache), GoodCache C →
      s.data = ['#', c1, c2, c3, c4, c5, c6, c7, c8] →
      hexDigitVal c1 = some v1 → hexDigitVal c2 = some v2 →
      hexDigitVal c3 = some v3 → hexDigitVal c4 = some v4 →
      hexDigitVal c5 = some v5 → hexDigitVal c6 = some v6 →
      hexDigitVal c7 = some v7 → hexDigitVal c8 = some v8 →
      16 * v7 + v8 ≠ 255 →
      colorLuminance (.str s) true C
        = (.error (.needsAlphaBlending (.str s) (some ((16 * v7 + v8 : ℕ) : ℚ))), C))
  ∧ (∀ (s : String) (d1 d2 d3 a : List Char) (C : Cache), GoodCache C →
      s.data.head? ≠ some '#' →
      findRgb (s.data.filter (fun c => c != ' ')) = some (d1, d2, d3, some a) →
      a ≠ ['1'] →
      colorLuminance (.str s) true C
        = (.error (.needsAlphaBlending (.str s) (numOfDecimal a)), C))
  ∧ (∀ (x1 x2 x3 x4 : ℚ) (C : Cache),
      0 ≤ x1 → x1 ≤ 255 → 0 ≤ x2 → x2 ≤ 255 → 0 ≤ x3 → x3 ≤ 255 → 0 ≤ x4 → x4 ≤ 255 →
      x4 ≠ 1 →
      colorLuminance (.arr [some x1, some x2, some x3, some x4]) true C
        = (.error (.needsAlphaBlending (.arr [some x1, some x2, some x3, some x4]) (some x4)),
            C)) := by
  refine ⟨?_, ?_, ?_⟩
  · intro s c1 c2 c3 c4 c5 c6 c7 c8 v1 v2 v3 v4 v5 v6 v7 v8 C hC hdata h1 h2 h3 h4 h5 h6 h7 h8
      halpha
    have hb : hexToByte (String.mk [c7, c8]) = some ((16 * v7 + v8 : ℕ) : ℚ) :=
      parseIntHex_pair h7 h8
    have hne : hexToByte (String.mk [c7, c8]) ≠ some 255 := by
      rw [hb]
      intro hcon
      apply halpha
      have hq := Option.some_inj.1 hcon
      exact_mod_cast hq
    have hres := stringLumResult_hex8_alpha hdata hne
    rw [hb] at hres
    exact colorLuminance_str_of_error hC hres true
  · intro s d1 d2 d3 a C hC hh hf hne
    exact colorLuminance_str_of_error hC (stringLumResult_rgb_alphaNe hh hf hne) true
  · intro x1 x2 x3 x4 C hx10 hx11 hx20 hx21 hx30 hx31 hx40 hx41 hne
    rw [colorLuminance_arr]
    show (arrayLuminance _, C) = _
    unfold arrayLuminance
    rw [assertRgbColor_four_alpha (outOfRange_false_iff.2 ⟨hx10, hx11⟩)
      (outOfRange_false_iff.2 ⟨hx20, hx21⟩) (outOfRange_false_iff.2 ⟨hx30, hx31⟩)
      (outOfRange_false_iff.2 ⟨hx40, hx41⟩) hne]

/-- Witness for C3 at the hex literal `"#ffffff66"` (alpha byte `0x66`). -/
theorem claim_C3_witness :
    colorLuminance (.str (String.mk ['#', 'f', 'f', 'f', 'f', 'f', 'f', '6', '6'])) true
        emptyCache
      = (.error (.needsAlphaBlending (.str (String.mk ['#', 'f', 'f', 'f', 'f', 'f', 'f',
          '6', '6'])) (some ((16 * 6 + 6 : ℕ) : ℚ))), emptyCache) :=
  claim_C3.1 (String.mk ['#', 'f', 'f', 'f', 'f', 'f', 'f', '6', '6']) 'f' 'f' 'f' 'f' 'f' 'f'
    '6' '6' 15 15 15 15 15 15 6 6 emptyCache goodCache_empty rfl (by decide) (by decide)
    (by decide) (by decide) (by decide) (by decide) (by decide) (by decide) (by decide)

/-! ### C4: the functional-notation grammar -/

lemma parseNum_digits {l d r : List Char} (h : parseNum l = some (d, r)) :
    d ≠ [] ∧ ∀ c ∈ d, isDigitChar c = true := by
  unfold parseNum at h
  split at h
  · cases h
  · next hne =>
    rw [Option.some_inj, Prod.mk.injEq] at h
    obtain ⟨hd, -⟩ := h
    constructor
    · intro hnil
      exact hne (by rw [hd, hnil]; rfl)
    · intro c hc
      rw [← hd] at hc
      exact List.mem_takeWhile_imp hc

lemma matchRgbAt_digits {l d1 d2 d3 : List Char} {al : Option (List Char)}
    (h : matchRgbAt l = some (d1, d2, d3, al)) :
    (d1 ≠ [] ∧ ∀ c ∈ d1, isDigitChar c = true)
  ∧ (d2 ≠ [] ∧ ∀ c ∈ d2, isDigitChar c = true)
  ∧ (d3 ≠ [] ∧ ∀ c ∈ d3, isDigitChar c = true) := by
  unfold matchRgbAt at h
  rcases hr : expect 'r' l >>= expect 'g' >>= expect 'b' with _ | r
  · rw [hr] at h
    cases h
  rw [hr] at h
  dsimp only at h
  rcases h0 : expect '(' (if r.head? = some 'a' then r.tail else r) with _ | r0
  · rw [h0] at h
    cases h
  rw [h0] at h
  dsimp only at h
  rcases hp1 : parseNum r0 with _ | ⟨e1, s1⟩
  · rw [hp1] at h
    cases h
  rw [hp1] at h
  dsimp only at h
  rcases h1 : expect ',' s1 with _ | r1
  · rw [h1] at h
    cases h
  rw [h1] at h
  dsimp only at h
  rcases hp2 : parseNum r1 with _ | ⟨e2, s2⟩
  · rw [hp2] at h
    cases h
  rw [hp2] at h
  dsimp only at h
  rcases h2 : expect ',' s2 with _ | r2
  · rw [h2] at h
    cases h
  rw [h2] at h
  dsimp only at h
  rcases hp3 : parseNum r2 with _ | ⟨e3, s3⟩
  · rw [hp3] at h
    cases h
  rw [hp3] at h
  dsimp only at h
  obtain ⟨g1, g1d⟩ := parseNum_digits hp1
  obtain ⟨g2, g2d⟩ := parseNum_digits hp2
  obtain ⟨g3, g3d⟩ := parseNum_digits hp3
  split at h
  · rw [Option.some_inj, Prod.mk.injEq, Prod.mk.injEq, Prod.mk.injEq] at h
    obtain ⟨q1, q2, q3, -⟩ := h
    subst q1
    subst q2
    subst q3
    exact ⟨⟨g1, g1d⟩, ⟨g2, g2d⟩, ⟨g3, g3d⟩⟩
  · rcases h3 : expect ',' s3 with _ | r3
    · rw [h3] at h
      cases h
    rw [h3] at h
    dsimp only at h
    rcases hpa : matchAlphaClose r3 with _ | pa
    · rw [hpa] at h
      cases h
    rw [hpa] at h
    dsimp only at h
    rw [Option.some_inj, Prod.mk.injEq, Prod.mk.injEq, Prod.mk.injEq] at h
    obtain ⟨q1, q2, q3, -⟩ := h
    subst q1
    subst q2
    subst q3
    exact ⟨⟨g1, g1d⟩, ⟨g2, g2d⟩, ⟨g3, g3d⟩⟩

lemma findRgb_digits {l d1 d2 d3 : List Char} {al : Option (List Char)}
    (h : findRgb l = some (d1, d2, d3, al)) :
    (d1 ≠ [] ∧ ∀ c ∈ d1, isDigitChar c = true)
  ∧ (d2 ≠ [] ∧ ∀ c ∈ d2, isDigitChar c = true)
  ∧ (d3 ≠ [] ∧ ∀ c ∈ d3, isDigitChar c = true) := by
  induction l with
  | nil => cases h
  | cons c t ih =>
    have heq : findRgb (c :: t) = match matchRgbAt (c :: t) with
        | some m => some m
        | none => findRgb t := rfl
    rw [heq] at h
    split at h
    · next m hm =>
      rw [Option.some_inj] at h
      subst h
      exact matchRgbAt_digits hm
    · exact ih h

lemma outOfRange_natCast (n : ℕ) : outOfRange (some ((n : ℕ) : ℚ)) = false ↔ n ≤ 255 := by
  rw [outOfRange_false_iff]
  constructor
  · rintro ⟨-, h⟩
    exact_mod_cast h
  · intro h
    exact ⟨Nat.cast_nonneg n, by exact_mod_cast h⟩

lemma isOkE_arrayLuminance_three {q1 q2 q3 : Option ℚ} :
    isOkE (arrayLuminance [q1, q2, q3]) = true
      ↔ outOfRange q1 = false ∧ outOfRange q2 = false ∧ outOfRange q3 = false := by
  constructor
  · intro h
    unfold arrayLuminance at h
    rcases ha : assertRgbColor [q1, q2, q3] with _ | e
    · obtain ⟨-, -, hall⟩ := assertRgbColor_none_inv ha
      exact ⟨hall _ (by simp), hall _ (by simp), hall _ (by simp)⟩
    · rw [ha] at h
      cases h
  · rintro ⟨h1, h2, h3⟩
    rw [arrayLuminance_three h1 h2 h3]
    rfl

/-- C4 (amended): for a string not starting with `#` (and a good cache),
parsing succeeds exactly when the space-stripped string CONTAINS a substring
matching `rgba?\\(N,N,N(,A)?\\)` — each `N` a digit run, the optional `A`
drawn from `1`, `0`, or an optional `0` followed by `.` and digits — whose
alpha capture, if present, is the literal `"1"`, and whose three numbers are
at most 255; and when no substring matches, parsing fails with
`UnsupportedFormat` carrying the original string.  (The claim as frozen
requires a whole-string match and predicts `UnsupportedFormat` otherwise;
the regex is unanchored and also accepts wider alpha forms and any numeric
magnitude, as the counterexample shows.) -/
theorem claim_C4 (s : String) (C : Cache) (hC : GoodCache C)
    (hh : s.data.head? ≠ some '#') :
    (isOkE (colorLuminance (.str s) true C).1 = true
      ↔ ∃ d1 d2 d3 al, findRgb (s.data.filter (fun c => c != ' ')) = some (d1, d2, d3, al)
          ∧ (al = none ∨ al = some ['1'])
          ∧ natval d1 ≤ 255 ∧ natval d2 ≤ 255 ∧ natval d3 ≤ 255)
  ∧ (findRgb (s.data.filter (fun c => c != ' ')) = none →
      (colorLuminance (.str s) true C).1 = .error (.unsupportedFormat (.str s))) := by
  rw [colorLuminance_fst hC (.str s) true]
  simp only [pureLum]
  constructor
  · rcases hf : findRgb (s.data.filter (fun c => c != ' ')) with _ | ⟨d1, d2, d3, al⟩
    · rw [stringLumResult_rgb_none hh hf]
      constructor
      · intro hok
        cases hok
      · rintro ⟨d1, d2, d3, al, hfind, -⟩
        cases hfind
    · obtain ⟨⟨g1, g1d⟩, ⟨g2, g2d⟩, ⟨g3, g3d⟩⟩ := findRgb_digits hf
      have hn1 := numOfDecimal_digits d1 g1d g1
      have hn2 := numOfDecimal_digits d2 g2d g2
      have hn3 := numOfDecimal_digits d3 g3d g3
      have hmain : isOkE (arrayLuminance [numOfDecimal d1, numOfDecimal d2, numOfDecimal d3])
          = true ↔ natval d1 ≤ 255 ∧ natval d2 ≤ 255 ∧ natval d3 ≤ 255 := by
        rw [hn1, hn2, hn3, isOkE_arrayLuminance_three, outOfRange_natCast, outOfRange_natCast,
          outOfRange_natCast]
      rcases al with _ | a
      · rw [stringLumResult_rgb_noalpha hh hf, hmain]
        constructor
        · rintro ⟨b1, b2, b3⟩
          exact ⟨d1, d2, d3, none, rfl, Or.inl rfl, b1, b2, b3⟩
        · rintro ⟨e1, e2, e3, al2, hfind, -, b1, b2, b3⟩
          rw [Option.some_inj, Prod.mk.injEq, Prod.mk.injEq, Prod.mk.injEq] at hfind
          obtain ⟨q1, q2, q3, -⟩ := hfind
          subst q1
          subst q2
          subst q3
          exact ⟨b1, b2, b3⟩
      · by_cases ha : a = ['1']
        · subst ha
          rw [stringLumResult_rgb_alpha1 hh hf, hmain]
          constructor
          · rintro ⟨b1, b2, b3⟩
            exact ⟨d1, d2, d3, some ['1'], rfl, Or.inr rfl, b1, b2, b3⟩
          · rintro ⟨e1, e2, e3, al2, hfind, -, b1, b2, b3⟩
            rw [Option.some_inj, Prod.mk.injEq, Prod.mk.injEq, Prod.mk.injEq] at hfind
            obtain ⟨q1, q2, q3, -⟩ := hfind
            subst q1
            subst q2
            subst q3
            exact ⟨b1, b2, b3⟩
        · rw [stringLumResult_rgb_alphaNe hh hf ha]
          constructor
          · intro hok
            cases hok
          · rintro ⟨e1, e2, e3, al2, hfind, hal, -⟩
            rw [Option.some_inj, Prod.mk.injEq, Prod.mk.injEq, Prod.mk.injEq] at hfind
            obtain ⟨-, -, -, q4⟩ := hfind
            rcases hal with hal | hal
            · rw [← q4] at hal
              cases hal
            · rw [← q4, Option.some_inj] at hal
              exact absurd hal ha
  · intro hf
    rw [stringLumResult_rgb_none hh hf]

lemma findRgb_xrgb :
    findRgb ['x', 'r', 'g', 'b', '(', '1', ',', '2', ',', '3', ')']
      = some (['1'], ['2'], ['3'], none) := by
  norm_num +decide [findRgb, matchRgbAt, isDigitChar, matchAlphaClose, expect, parseNum,
    parseFrac, List.dropWhile_cons, List.takeWhile_cons]

/-- Counterexample to C4 as stated: `"xrgb(1,2,3)"` does not match the
grammar as a whole (it has a leading `x`), so the claim predicts an
`UnsupportedFormat` failure, yet parsing succeeds because the regex is
unanchored and matches the substring starting at index 1. -/
theorem claim_C4_counterexample :
    isOkE (colorLuminance
      (.str (String.mk ['x', 'r', 'g', 'b', '(', '1', ',', '2', ',', '3', ')'])) true
      emptyCache).1 = true := by
  rw [colorLuminance_fst goodCache_empty
    (.str (String.mk ['x', 'r', 'g', 'b', '(', '1', ',', '2', ',', '3', ')'])) true]
  simp only [pureLum]
  have hh : (String.mk ['x', 'r', 'g', 'b', '(', '1', ',', '2', ',', '3', ')']).data.head?
      ≠ some '#' := by decide
  have hfil : (String.mk ['x', 'r', 'g', 'b', '(', '1', ',', '2', ',', '3', ')']).data.filter
      (fun c => c != ' ') = ['x', 'r', 'g', 'b', '(', '1', ',', '2', ',', '3', ')'] := by decide
  rw [stringLumResult_rgb_noalpha hh (by rw [hfil]; exact findRgb_xrgb)]
  rw [numOfDecimal_digits ['1'] (by decide) (by decide),
    numOfDecimal_digits ['2'] (by decide) (by decide),
    numOfDecimal_digits ['3'] (by decide) (by decide), isOkE_arrayLuminance_three]
  refine ⟨?_, ?_, ?_⟩ <;> rw [outOfRange_natCast] <;> decide

/-- Witness for C4 at `"hsla(0,0,0,1)"`, which contains no matching
substring and therefore fails with UnsupportedFormat. -/
theorem claim_C4_witness :
    (colorLuminance
      (.str (String.mk ['h', 's', 'l', 'a', '(', '0', ',', '0', ',', '0', ',', '1', ')'])) true
      emptyCache).1
      = .error (.unsupportedFormat
          (.str (String.mk ['h', 's', 'l', 'a', '(', '0', ',', '0', ',', '0', ',', '1', ')']))) :=
  (claim_C4 (String.mk ['h', 's', 'l', 'a', '(', '0', ',', '0', ',', '0', ',', '1', ')'])
    emptyCache goodCache_empty (by decide)).2 (by decide)

/-! ### C5: equal luminance across encodings -/

lemma hexToByte_pair {a b : Char} {va vb : ℕ} (ha : hexDigitVal a = some va)
    (hb : hexDigitVal b = some vb) :
    hexToByte (String.mk [a, b]) = some ((16 * va + vb : ℕ) : ℚ) := parseIntHex_pair ha hb

lemma isDigitChar_bne_space {c : Char} (h : isDigitChar c = true) : (c != ' ') = true := by
  have hne : c ≠ ' ' := by
    intro e
    rw [e] at h
    exact absurd h (by decide)
  simpa using hne

lemma matchRgbAt_build (d1 d2 d3 : List Char)
    (g1 : d1 ≠ []) (g1d : ∀ c ∈ d1, isDigitChar c = true)
    (g2 : d2 ≠ []) (g2d : ∀ c ∈ d2, isDigitChar c = true)
    (g3 : d3 ≠ []) (g3d : ∀ c ∈ d3, isDigitChar c = true) :
    matchRgbAt ('r' :: 'g' :: 'b' :: '(' :: (d1 ++ ',' :: (d2 ++ ',' :: (d3 ++ [')']))))
      = some (d1, d2, d3, none) := by
  have ht1 := @takeWhile_append_cons isDigitChar d1 ',' (d2 ++ ',' :: (d3 ++ [')'])) g1d
    (by decide)
  have hw1 := @dropWhile_append_cons isDigitChar d1 ',' (d2 ++ ',' :: (d3 ++ [')'])) g1d
    (by decide)
  have ht2 := @takeWhile_append_cons isDigitChar d2 ',' (d3 ++ [')']) g2d (by decide)
  have hw2 := @dropWhile_append_cons isDigitChar d2 ',' (d3 ++ [')']) g2d (by decide)
  have ht3 := @takeWhile_append_cons isDigitChar d3 ')' [] g3d (by decide)
  have hw3 := @dropWhile_append_cons isDigitChar d3 ')' [] g3d (by decide)
  have e1 : d1.isEmpty = false := by
    rcases d1 with _ | ⟨c, t⟩
    · exact absurd rfl g1
    · rfl
  have e2 : d2.isEmpty = false := by
    rcases d2 with _ | ⟨c, t⟩
    · exact absurd rfl g2
    · rfl
  have e3 : d3.isEmpty = false := by
    rcases d3 with _ | ⟨c, t⟩
    · exact absurd rfl g3
    · rfl
  unfold matchRgbAt
  simp [expect, parseNum, ht1, hw1, ht2, hw2, ht3, hw3, e1, e2, e3]

lemma findRgb_build (d1 d2 d3 : List Char)
    (g1 : d1 ≠ []) (g1d : ∀ c ∈ d1, isDigitChar c = true)
    (g2 : d2 ≠ []) (g2d : ∀ c ∈ d2, isDigitChar c = true)
    (g3 : d3 ≠ []) (g3d : ∀ c ∈ d3, isDigitChar c = true) :
    findRgb ('r' :: 'g' :: 'b' :: '(' :: (d1 ++ ',' :: (d2 ++ ',' :: (d3 ++ [')']))))
      = some (d1, d2, d3, none) := by
  have heq : findRgb ('r' :: 'g' :: 'b' :: '(' :: (d1 ++ ',' :: (d2 ++ ',' :: (d3 ++ [')']))))
      = match matchRgbAt ('r' :: 'g' :: 'b' :: '(' :: (d1 ++ ',' :: (d2 ++ ',' ::
          (d3 ++ [')'])))) with
        | some m => some m
        | none => findRgb ('g' :: 'b' :: '(' :: (d1 ++ ',' :: (d2 ++ ',' :: (d3 ++ [')'])))) :=
    rfl
  rw [heq, matchRgbAt_build d1 d2 d3 g1 g1d g2 g2d g3 g3d]

/-- C5: the encodings of one color — 6-digit hex, 8-digit hex with alpha
byte `FF`, `rgb(...)` functional notation, the numeric array, and (for
duplicated-digit bytes) the 3-digit shorthand — all produce the same
luminance. -/
theorem claim_C5 (C : Cache) (hC : GoodCache C)
    (c1 c2 c3 c4 c5 c6 a1 a2 e1 e2 e3 : Char) (v1 v2 v3 v4 v5 v6 va1 va2 w1 w2 w3 : ℕ)
    (h1 : hexDigitVal c1 = some v1) (h2 : hexDigitVal c2 = some v2)
    (h3 : hexDigitVal c3 = some v3) (h4 : hexDigitVal c4 = some v4)
    (h5 : hexDigitVal c5 = some v5) (h6 : hexDigitVal c6 = some v6)
    (ha1 : hexDigitVal a1 = some va1) (ha2 : hexDigitVal a2 = some va2)
    (halpha : 16 * va1 + va2 = 255)
    (he1 : hexDigitVal e1 = some w1) (he2 : hexDigitVal e2 = some w2)
    (he3 : hexDigitVal e3 = some w3)
    (d1 d2 d3 : List Char)
    (g1 : d1 ≠ []) (g1d : ∀ c ∈ d1, isDigitChar c = true) (hn1 : natval d1 = 16 * v1 + v2)
    (g2 : d2 ≠ []) (g2d : ∀ c ∈ d2, isDigitChar c = true) (hn2 : natval d2 = 16 * v3 + v4)
    (g3 : d3 ≠ []) (g3d : ∀ c ∈ d3, isDigitChar c = true) (hn3 : natval d3 = 16 * v5 + v6) :
    (colorLuminance (.str (String.mk ['#', c1, c2, c3, c4, c5, c6])) true C).1
        = (colorLuminance (.arr [some ((16 * v1 + v2 : ℕ) : ℚ), some ((16 * v3 + v4 : ℕ) : ℚ),
            some ((16 * v5 + v6 : ℕ) : ℚ)]) true C).1
  ∧ (colorLuminance (.str (String.mk ['#', c1, c2, c3, c4, c5, c6, a1, a2])) true C).1
        = (colorLuminance (.arr [some ((16 * v1 + v2 : ℕ) : ℚ), some ((16 * v3 + v4 : ℕ) : ℚ),
            some ((16 * v5 + v6 : ℕ) : ℚ)]) true C).1
  ∧ (colorLuminance (.str (String.mk ('r' :: 'g' :: 'b' :: '(' ::
        (d1 ++ ',' :: (d2 ++ ',' :: (d3 ++ [')'])))))) true C).1
        = (colorLuminance (.arr [some ((16 * v1 + v2 : ℕ) : ℚ), some ((16 * v3 + v4 : ℕ) : ℚ),
            some ((16 * v5 + v6 : ℕ) : ℚ)]) true C).1
  ∧ (colorLuminance (.str (String.mk ['#', e1, e2, e3])) true C).1
        = (colorLuminance (.arr [some ((17 * w1 : ℕ) : ℚ), some ((17 * w2 : ℕ) : ℚ),
            some ((17 * w3 : ℕ) : ℚ)]) true C).1 := by
  simp only [colorLuminance_fst hC, pureLum]
  refine ⟨?_, ?_, ?_, ?_⟩
  · rw [stringLumResult_hex6 rfl, hexToByte_pair h1 h2, hexToByte_pair h3 h4,
      hexToByte_pair h5 h6]
  · have hA : hexToByte (String.mk [a1, a2]) = some 255 := by
      rw [hexToByte_pair ha1 ha2, halpha]
      norm_num
    rw [stringLumResult_hex8_ff rfl hA, hexToByte_pair h1 h2, hexToByte_pair h3 h4,
      hexToByte_pair h5 h6]
  · have hh : (String.mk ('r' :: 'g' :: 'b' :: '(' ::
        (d1 ++ ',' :: (d2 ++ ',' :: (d3 ++ [')']))))).data.head? ≠ some '#' := by
      intro hcon
      exact absurd (Option.some_inj.1 hcon) (by decide)
    have hfil : (String.mk ('r' :: 'g' :: 'b' :: '(' ::
        (d1 ++ ',' :: (d2 ++ ',' :: (d3 ++ [')']))))).data.filter (fun c => c != ' ')
          = 'r' :: 'g' :: 'b' :: '(' :: (d1 ++ ',' :: (d2 ++ ',' :: (d3 ++ [')']))) := by
      apply List.filter_eq_self.mpr
      intro c hc
      rcases List.mem_cons.1 hc with rfl | hc
      · decide
      rcases List.mem_cons.1 hc with rfl | hc
      · decide
      rcases List.mem_cons.1 hc with rfl | hc
      · decide
      rcases List.mem_cons.1 hc with rfl | hc
      · decide
      rcases List.mem_append.1 hc with hc | hc
      · exact isDigitChar_bne_space (g1d c hc)
      rcases List.mem_cons.1 hc with rfl | hc
      · decide
      rcases List.mem_append.1 hc with hc | hc
      · exact isDigitChar_bne_space (g2d c hc)
      rcases List.mem_cons.1 hc with rfl | hc
      · decide
      rcases List.mem_append.1 hc with hc | hc
      · exact isDigitChar_bne_space (g3d c hc)
      rcases List.mem_cons.1 hc with rfl | hc
      · decide
      cases hc
    rw [stringLumResult_rgb_noalpha hh
      (by rw [hfil]; exact findRgb_build d1 d2 d3 g1 g1d g2 g2d g3 g3d),
      numOfDecimal_digits d1 g1d g1, numOfDecimal_digits d2 g2d g2,
      numOfDecimal_digits d3 g3d g3, hn1, hn2, hn3]
  · have h17 : ∀ w : ℕ, 16 * w + w = 17 * w := fun w => by ring
    rw [stringLumResult_hex3 rfl, hexToByte_pair he1 he1, hexToByte_pair he2 he2,
      hexToByte_pair he3 he3, h17 w1, h17 w2, h17 w3]

/-- Witness for C5 at the color black: `"#000000"`, `"#000000ff"`,
`"rgb(0,0,0)"`, `[0,0,0]` and the shorthand `"#000"`. -/
theorem claim_C5_witness :
    (colorLuminance (.str (String.mk ['#', '0', '0', '0', '0', '0', '0'])) true emptyCache).1
        = (colorLuminance (.arr [some ((16 * 0 + 0 : ℕ) : ℚ), some ((16 * 0 + 0 : ℕ) : ℚ),
            some ((16 * 0 + 0 : ℕ) : ℚ)]) true emptyCache).1
  ∧ (colorLuminance (.str (String.mk ['#', '0', '0', '0', '0', '0', '0', 'f', 'f'])) true
        emptyCache).1
        = (colorLuminance (.arr [some ((16 * 0 + 0 : ℕ) : ℚ), some ((16 * 0 + 0 : ℕ) : ℚ),
            some ((16 * 0 + 0 : ℕ) : ℚ)]) true emptyCache).1
  ∧ (colorLuminance (.str (String.mk ('r' :: 'g' :: 'b' :: '(' ::
        (['0'] ++ ',' :: (['0'] ++ ',' :: (['0'] ++ [')'])))))) true emptyCache).1
        = (colorLuminance (.arr [some ((16 * 0 + 0 : ℕ) : ℚ), some ((16 * 0 + 0 : ℕ) : ℚ),
            some ((16 * 0 + 0 : ℕ) : ℚ)]) true emptyCache).1
  ∧ (colorLuminance (.str (String.mk ['#', '0', '0', '0'])) true emptyCache).1
        = (colorLuminance (.arr [some ((17 * 0 : ℕ) : ℚ), some ((17 * 0 : ℕ) : ℚ),
            some ((17 * 0 : ℕ) : ℚ)]) true emptyCache).1 :=
  claim_C5 emptyCache goodCache_empty '0' '0' '0' '0' '0' '0' 'f' 'f' '0' '0' '0'
    0 0 0 0 0 0 15 15 0 0 0 (by decide) (by decide) (by decide) (by decide) (by decide)
    (by decide) (by decide) (by decide) (by decide) (by decide) (by decide) (by decide)
    ['0'] ['0'] ['0'] (by decide) (by decide) (by decide) (by decide) (by decide) (by decide)
    (by decide) (by decide) (by decide)

end UCL
